import Mathlib

/-!
Verification of the artifacts provisioning and delegation logic in
src/vcpkg/configure-environment.cpp (vcpkg-tool fork).

The development shallowly embeds the file's logic:

* an abstract filesystem (association list from paths to entries), standing
  for the Filesystem collaborator;
* an operation trace type recording the filesystem / downloader / diagnostic
  calls the code performs, in program order;
* the bundle fetcher (download_vcpkg_standalone_bundle, both preprocessor
  arms), the installer sequence (lines 202-210), the version gate
  (lines 182-188), the telemetry harvester (track_telemetry), the exit-code
  clamp (lines 274-287), the invocation builder (lines 232-264), and
  forward_common_artifacts_arguments together with more_than_one_mapped.

Machine integers that matter (the delegate exit code) are modelled as Int
with the exact comparisons the code performs.
-/

namespace ConfigureEnvironment

/-- An entry in the abstract filesystem: a directory, a readable file with
its contents, or a file that exists but cannot be read. -/
inductive Entry where
  | dirE : Entry
  | fileE (contents : String) : Entry
  | unreadableE : Entry
deriving DecidableEq, Repr

/-- Abstract filesystem state: an association list from paths (strings) to
entries.  Later entries may be shadowed by earlier ones; existence is
membership of the key. -/
structure Fs where
  entries : List (String × Entry)
deriving DecidableEq, Repr

/-- Does a path exist (fs.exists in the C++ Filesystem collaborator)? -/
def pathExists (fs : Fs) (p : String) : Bool :=
  fs.entries.any (fun e => e.1 == p)

/-- Read a file's contents (fs.read_contents).  Returns none when the path
is absent, is a directory, or is unreadable - the three error cases the
C++ error-code overload reports. -/
def readContents (fs : Fs) (p : String) : Option String :=
  match fs.entries.lookup p with
  | some (Entry.fileE c) => some c
  | _ => none

/-- Remove every association for a key, then bind it to a new entry. -/
def setEntry (fs : Fs) (p : String) (e : Entry) : Fs :=
  ⟨(p, e) :: fs.entries.filter (fun x => !(x.1 == p))⟩

/-- fs.write_contents: (over)write a readable file. -/
def writeFile (fs : Fs) (p contents : String) : Fs :=
  setEntry fs p (Entry.fileE contents)

/-- fs.remove: delete a single path. -/
def removeFile (fs : Fs) (p : String) : Fs :=
  ⟨fs.entries.filter (fun x => !(x.1 == p))⟩

/-- Is q the path p itself or strictly below the directory p? -/
def underPath (p q : String) : Bool :=
  q == p || (p ++ "/").isPrefixOf q

/-- fs.remove_all: delete a path and everything below it. -/
def removeAllPaths (fs : Fs) (p : String) : Fs :=
  ⟨fs.entries.filter (fun x => !(underPath p x.1))⟩

/-- One observable operation performed by the provisioning code, in program
order: downloader calls, filesystem mutations, and diagnostic output. -/
inductive Op where
  | statusMsg (m : String) : Op
  | reportLine (m : String) : Op
  | download (uri dest : String) : Op
  | extractTemp (archive destRoot : String) : Op
  | removeAll (p : String) : Op
  | renameOp (src dst : String) : Op
  | removeOp (p : String) : Op
  | writeOp (p contents : String) : Op
deriving DecidableEq, Repr

/-- Tarball file name in the pinned (VCPKG_STANDALONE_BUNDLE_SHA) arm,
line 114: "vcpkg-standalone-bundle-" VCPKG_BASE_VERSION_AS_STRING ".tar.gz". -/
def pinned_tarball_name (version : String) : String :=
  "vcpkg-standalone-bundle-" ++ version ++ ".tar.gz"

/-- Release-asset URI of the pinned bundle, lines 117-119. -/
def pinned_bundle_uri (version : String) : String :=
  "https://github.com/microsoft/vcpkg-tool/releases/download/" ++ version ++
    "/vcpkg-standalone-bundle.tar.gz"

/-- Tarball file name in the latest arm, line 133. -/
def latest_tarball_name : String := "vcpkg-standalone-bundle-latest.tar.gz"

/-- Latest-release redirect URI, lines 144-145. -/
def latest_bundle_uri : String :=
  "https://github.com/microsoft/vcpkg-tool/releases/latest/download/vcpkg-standalone-bundle.tar.gz"

/-- download_vcpkg_standalone_bundle, pinned arm (lines 113-131).
The downloader collaborator is abstracted by the boolean downloadOk: it
verifies the supplied hash itself and on failure leaves no file behind.
Returns the optional tarball path, the filesystem afterwards, and the trace. -/
def download_vcpkg_standalone_bundle_pinned (downloadOk : Bool) (fs : Fs)
    (download_root version : String) : Option String × Fs × List Op :=
  let bundle_tarball := download_root ++ "/" ++ pinned_tarball_name version
  let trace := [Op.statusMsg "DownloadingVcpkgStandaloneBundle",
                Op.download (pinned_bundle_uri version) bundle_tarball]
  if downloadOk then
    (some bundle_tarball, writeFile fs bundle_tarball "", trace)
  else
    (none, fs, trace)

/-- download_vcpkg_standalone_bundle, latest arm (lines 132-157).
removeFails lists the paths on which fs.remove reports an error code;
downloadOk abstracts the (hashless) downloader as in the pinned arm. -/
def download_vcpkg_standalone_bundle_latest (downloadOk : Bool)
    (removeFails : List String) (fs : Fs) (download_root : String) :
    Option String × Fs × List Op :=
  let bundle_tarball := download_root ++ "/" ++ latest_tarball_name
  let t0 := [Op.reportLine "warning: DownloadingVcpkgStandaloneBundleLatest"]
  if removeFails.contains bundle_tarball then
    (none, fs, t0 ++ [Op.reportLine ("error: remove " ++ bundle_tarball)])
  else
    let fs1 := removeFile fs bundle_tarball
    let t1 := t0 ++ [Op.removeOp bundle_tarball,
                     Op.download latest_bundle_uri bundle_tarball]
    if downloadOk then
      (some bundle_tarball, writeFile fs1 bundle_tarball "", t1)
    else
      (none, fs1, t1)

/-- Deterministic stand-in for the fresh temporary subdirectory that
extract_archive_to_temp_subdirectory creates next to its destination. -/
def tempSubdirOf (destRoot : String) : String := destRoot ++ ".tmp"

/-- Extractor collaborator: extract the whole archive into the fresh
temporary subdirectory; the bundle's relevant content lands at
temp/"vcpkg-artifacts".  (extract_archive_to_temp_subdirectory, line 202.) -/
def extractArchiveToTempSubdirectory (fs : Fs) (destRoot : String) : Fs :=
  let temp := tempSubdirOf destRoot
  setEntry (setEntry fs temp Entry.dirE) (temp ++ "/vcpkg-artifacts") Entry.dirE

/-- fs.rename_with_retry: the source subtree disappears and the
destination appears.  (Line 205.) -/
def renamePath (fs : Fs) (src dst : String) : Fs :=
  setEntry (removeAllPaths fs src) dst Entry.dirE

/-- Version-marker file path, line 183: vcpkg_artifacts_path / "version.txt". -/
def versionMarkerOf (artifactsPath : String) : String :=
  artifactsPath ++ "/version.txt"

/-- The installer sequence, lines 202-210: extract to temp, remove the live
root, rename temp/"vcpkg-artifacts" into the live root, remove temp, remove
the tarball, and - only in the pinned arm - write the version marker.
Each fs call here is the fatal overload (exits the process on error), so the
model covers the successful execution the surrounding claims speak about.
Returns the filesystem afterwards and the trace in program order. -/
def install_bundle (pinned : Bool) (version : String) (fs : Fs)
    (tarball artifactsPath : String) : Fs × List Op :=
  let temp := tempSubdirOf artifactsPath
  let fs1 := extractArchiveToTempSubdirectory fs artifactsPath
  let fs2 := removeAllPaths fs1 artifactsPath
  let fs3 := renamePath fs2 (temp ++ "/vcpkg-artifacts") artifactsPath
  let fs4 := removeAllPaths fs3 temp
  let fs5 := removeFile fs4 tarball
  let fs6 := if pinned then writeFile fs5 (versionMarkerOf artifactsPath) version else fs5
  (fs6,
   [Op.extractTemp tarball artifactsPath,
    Op.removeAll artifactsPath,
    Op.renameOp (temp ++ "/vcpkg-artifacts") artifactsPath,
    Op.removeAll temp,
    Op.removeOp tarball] ++
   (if pinned then [Op.writeOp (versionMarkerOf artifactsPath) version] else []))

/-- Modelled from the spec: Filesystem.check_update_required is declared in
the filesystem collaborator, whose implementation is not part of this
repository slice.  Per the spec, it reads the version-marker file and
reports an update required (stale) when the file is absent, unreadable, or
its contents differ from the expected version string. -/
def check_update_required (fs : Fs) (version_path expected_version : String) : Bool :=
  match readContents fs version_path with
  | none => true
  | some contents => contents != expected_version

/-- Development-sentinel staleness test of the latest arm, line 187:
out_of_date is the non-existence of artifacts-development.txt. -/
def latest_out_of_date (fs : Fs) (artifactsPath : String) : Bool :=
  !(pathExists fs (artifactsPath ++ "/artifacts-development.txt"))

/-- Provisioning in the pinned arm (lines 182-211): gate on
check_update_required; when stale, fetch the pinned bundle (exiting
fatally when the fetch fails, modelled as the none result) and run the
installer with the marker write.  Not stale: nothing happens. -/
def provision_pinned (downloadOk : Bool) (fs : Fs)
    (download_root artifactsPath version : String) : Option Fs × List Op :=
  if check_update_required fs (versionMarkerOf artifactsPath) version then
    match download_vcpkg_standalone_bundle_pinned downloadOk fs download_root version with
    | (none, _, tr) => (none, tr)
    | (some tarball, fs1, tr) =>
      let r := install_bundle true version fs1 tarball artifactsPath
      (some r.1, tr ++ r.2)
  else
    (some fs, [])

/-- Provisioning in the latest arm (lines 186-211): gate on the development
sentinel; when stale, fetch the latest bundle (fatal exit when the fetch
fails) and run the installer without a marker write. -/
def provision_latest (downloadOk : Bool) (removeFails : List String) (fs : Fs)
    (download_root artifactsPath : String) : Option Fs × List Op :=
  if latest_out_of_date fs artifactsPath then
    match download_vcpkg_standalone_bundle_latest downloadOk removeFails fs download_root with
    | (none, _, tr) => (none, tr)
    | (some tarball, fs1, tr) =>
      let r := install_bundle false "" fs1 tarball artifactsPath
      (some r.1, tr ++ r.2)
  else
    (some fs, [])

/-- A JSON value as far as track_telemetry inspects one: a string, or
anything whose maybe_string() is empty. -/
inductive JVal where
  | jstr (s : String) : JVal
  | jnum (n : Int) : JVal
  | jbool (b : Bool) : JVal
  | jnull : JVal
deriving DecidableEq, Repr

/-- maybe_string of a JSON value. -/
def JVal.maybeString : JVal → Option String
  | JVal.jstr s => some s
  | _ => none

/-- The telemetry file as track_telemetry (lines 26-76) observes it:
read_contents failed with an error code, Json::parse_object failed, or a
parsed object (association list; Json::Object::get finds the first match). -/
inductive TelemetryInput where
  | unreadableFile (ecMessage : String) : TelemetryInput
  | malformedFile (errMessage : String) : TelemetryInput
  | parsedObj (obj : List (String × JVal)) : TelemetryInput
deriving DecidableEq, Repr

/-- The two string metrics track_telemetry can forward. -/
inductive StringMetric where
  | acquiredArtifacts : StringMetric
  | activatedArtifacts : StringMetric
deriving DecidableEq, Repr

/-- What one run of track_telemetry does: the track_string calls made on the
global metrics collector, in order, and the Debug::println lines emitted. -/
structure TelemetryOutcome where
  metrics : List (StringMetric × String)
  debugLines : List String
deriving DecidableEq, Repr

/-- Handling of one field of the parsed telemetry object (the two identical
if/else ladders of lines 45-59 and 61-75). -/
def track_telemetry_field (obj : List (String × JVal)) (key : String)
    (metric : StringMetric) (notString absent : String) :
    List (StringMetric × String) × List String :=
  match obj.lookup key with
  | some v =>
    match v.maybeString with
    | some s => ([(metric, s)], [])
    | none => ([], [notString])
  | none => ([], [absent])

/-- track_telemetry, lines 26-76.  Reads and parses the telemetry file
(both failures only log at debug level and return), then forwards the
acquired_artifacts and activated_artifacts fields independently when they
are present and string-typed. -/
def track_telemetry : TelemetryInput → TelemetryOutcome
  | TelemetryInput.unreadableFile ec =>
    ⟨[], ["Telemetry file couldn't be read: " ++ ec]⟩
  | TelemetryInput.malformedFile err =>
    ⟨[], ["Telemetry file couldn't be parsed: " ++ err]⟩
  | TelemetryInput.parsedObj obj =>
    let acq := track_telemetry_field obj "acquired_artifacts"
      StringMetric.acquiredArtifacts "Acquired artifacts was not a string."
      "No artifacts acquired."
    let act := track_telemetry_field obj "activated_artifacts"
      StringMetric.activatedArtifacts "Activated artifacts was not a string."
      "No artifacts activated."
    ⟨acq.1 ++ act.1, acq.2 ++ act.2⟩

/-- Exit-code handling for the awaited delegate, lines 274-287 (signed arm):
results outside [0, 127] collapse to 1, everything else passes through. -/
def clamp_exit_code (node_result : Int) : Int :=
  if node_result < 0 ∨ node_result > 127 then 1 else node_result

/-- The post-execution phase of run_configure_environment_command
(lines 268-287): harvest telemetry only when metrics are enabled, then
compute the parent's exit status from the delegate's result. -/
def post_execution (node_result : Int) (metricsEnabled : Bool)
    (telemetry : TelemetryInput) : Int × TelemetryOutcome :=
  let outcome := if metricsEnabled then track_telemetry telemetry else ⟨[], []⟩
  (clamp_exit_code node_result, outcome)

/-- Inputs of the invocation-building block, lines 230-264.  Path-valued
fields are the already-resolved strings the code interpolates; the two
UUIDs stand for the generate_random_UUID() calls in source order. -/
structure InvocationInputs where
  mainJsPath : String
  forwardedArgs : List String
  debugging : Bool
  metricsEnabled : Bool
  tempDirectory : String
  telemetryUuid : String
  prevEnvUuid : String
  vcpkgRoot : String
  exePath : String
  artifactsRoot : String
  downloadsDir : String
  registriesCache : String
  globalConfig : String
  loadedMessages : String
deriving DecidableEq, Repr

/-- The telemetry file path of lines 243-244:
temp_directory / (generate_random_UUID() + "_artifacts_telemetry.txt"). -/
def telemetryFilePathOf (i : InvocationInputs) : String :=
  i.tempDirectory ++ "/" ++ i.telemetryUuid ++ "_artifacts_telemetry.txt"

/-- The previous-environment snapshot path of line 255. -/
def prevEnvironmentPathOf (i : InvocationInputs) : String :=
  i.tempDirectory ++ "/" ++ i.prevEnvUuid ++ "_previous_environment.txt"

/-- The fixed contextual flags appended on lines 248-256. -/
def fixed_invocation_args (i : InvocationInputs) : List String :=
  ["--vcpkg-root", i.vcpkgRoot,
   "--z-vcpkg-command", i.exePath,
   "--z-vcpkg-artifacts-root", i.artifactsRoot,
   "--z-vcpkg-downloads", i.downloadsDir,
   "--z-vcpkg-registries-cache", i.registriesCache,
   "--z-next-previous-environment", prevEnvironmentPathOf i,
   "--z-global-config", i.globalConfig]

/-- The delegate's argument list as built on lines 232-264 (everything the
Command accumulates after the node executable): main.js, the forwarded user
arguments, --debug when debugging, the telemetry-file flag-and-path when
metrics are enabled, the fixed contextual flags, and the language file when
localized messages were loaded. -/
def build_invocation_args (i : InvocationInputs) : List String :=
  [i.mainJsPath] ++ i.forwardedArgs ++
  (if i.debugging then ["--debug"] else []) ++
  (if i.metricsEnabled then ["--z-telemetry-file", telemetryFilePathOf i] else []) ++
  fixed_invocation_args i ++
  (if i.loadedMessages != "" then ["--language", i.tempDirectory ++ "/messages.json"] else [])

/-- Switch-name group of operating-system selectors, lines 78-79.  The
contractual-constants header is outside this slice; the spellings are the
conventional vcpkg artifact switch names, and no claim depends on them. -/
def ArtifactOperatingSystemsSwitchNames : List String :=
  ["windows", "osx", "linux", "freebsd"]

/-- Switch-name group of host-architecture selectors, lines 80-81. -/
def ArtifactHostPlatformSwitchNames : List String :=
  ["x86", "x64", "arm", "arm64"]

/-- Switch-name group of target-architecture selectors, lines 82-83. -/
def ArtifactTargetPlatformSwitchNames : List String :=
  ["target:x86", "target:x64", "target:arm", "target:arm64"]

/-- The loop body of more_than_one_mapped with its seen flag explicit. -/
def more_than_one_mapped_loop (switches : List String) :
    List String → Bool → Bool
  | [], _ => false
  | c :: rest, seen =>
    if switches.contains c then
      if seen then true else more_than_one_mapped_loop switches rest true
    else
      more_than_one_mapped_loop switches rest seen

/-- more_than_one_mapped, lines 85-103: do at least two of the candidate
names occur in the parsed switch set? -/
def more_than_one_mapped (candidates switches : List String) : Bool :=
  more_than_one_mapped_loop switches candidates false

/-- The host-parsed arguments forward_common_artifacts_arguments consumes:
the switch set and the settings map, each in its container's iteration
order. -/
structure ParsedArguments where
  switches : List String
  settings : List (String × String)
deriving DecidableEq, Repr

/-- Result of forward_common_artifacts_arguments: the final appended_to
vector, or a fatal mutually-exclusive-switches exit together with the
appended_to contents at the moment of the abort. -/
inductive ForwardOutcome where
  | ok (appended : List String) : ForwardOutcome
  | fatalError (msg : String) (appendedSoFar : List String) : ForwardOutcome
deriving DecidableEq, Repr

/-- forward_common_artifacts_arguments, lines 290-318: push "--switch" for
every switch, then run the three mutually-exclusive-group checks (each a
fatal process exit), then push "--name" and the value for every setting. -/
def forward_common_artifacts_arguments (appended_to : List String)
    (parsed : ParsedArguments) : ForwardOutcome :=
  let a1 := appended_to ++ parsed.switches.map (fun s => "--" ++ s)
  if more_than_one_mapped ArtifactOperatingSystemsSwitchNames parsed.switches then
    ForwardOutcome.fatalError "ArtifactsSwitchOnlyOneOperatingSystem" a1
  else if more_than_one_mapped ArtifactHostPlatformSwitchNames parsed.switches then
    ForwardOutcome.fatalError "ArtifactsSwitchOnlyOneHostPlatform" a1
  else if more_than_one_mapped ArtifactTargetPlatformSwitchNames parsed.switches then
    ForwardOutcome.fatalError "ArtifactsSwitchOnlyOneTargetPlatform" a1
  else
    ForwardOutcome.ok
      (a1 ++ parsed.settings.foldr (fun kv acc => ("--" ++ kv.1) :: kv.2 :: acc) [])

/-- A fatal forwarding outcome prevents the delegate invocation entirely;
an ok outcome hands the computed arguments to the invocation. -/
def forward_then_invoke (parsed : ParsedArguments)
    (invoke : List String → Int) : Except String Int :=
  match forward_common_artifacts_arguments [] parsed with
  | ForwardOutcome.fatalError m _ => Except.error m
  | ForwardOutcome.ok appended => Except.ok (invoke appended)

/-- Two distinct switch names of the same platform-dimension group are both
present in the parsed switch set. -/
def twoFromGroup (group switches : List String) : Prop :=
  ∃ c₁ c₂, c₁ ≠ c₂ ∧ c₁ ∈ group ∧ c₂ ∈ group ∧ c₁ ∈ switches ∧ c₂ ∈ switches

/-- Does the literal token occur among the builder inputs that are
forwarded or interpolated verbatim (user arguments and path fields)?
Used to state flag-absence without interference from adversarial inputs. -/
def flag_token_clash (i : InvocationInputs) (tok : String) : Bool :=
  i.forwardedArgs.contains tok || tok == i.mainJsPath || tok == i.vcpkgRoot ||
  tok == i.exePath || tok == i.artifactsRoot || tok == i.downloadsDir ||
  tok == i.registriesCache || tok == i.globalConfig ||
  tok == prevEnvironmentPathOf i || tok == (i.tempDirectory ++ "/messages.json")

/-! Helper lemmas. -/

/-- Any metric pair produced for one telemetry field carries that field's
metric key. -/
lemma track_telemetry_field_keys (obj : List (String × JVal)) (key : String)
    (metric : StringMetric) (notString absent : String) :
    ∀ pair ∈ (track_telemetry_field obj key metric notString absent).1,
      pair.1 = metric := by
  intro pair hp
  unfold track_telemetry_field at hp
  rcases h : obj.lookup key with _ | v
  · simp [h] at hp
  · rcases hs : v.maybeString with _ | s
    · simp [h, hs] at hp
    · simp [h, hs] at hp
      rw [hp]

/-- The metric list of one telemetry field, characterized by its lookup. -/
lemma track_telemetry_field_eq (obj : List (String × JVal)) (key : String)
    (metric : StringMetric) (notString absent : String) :
    (track_telemetry_field obj key metric notString absent).1 =
      (match obj.lookup key with
       | some (JVal.jstr s) => [(metric, s)]
       | _ => []) := by
  unfold track_telemetry_field
  rcases h : obj.lookup key with _ | v
  · rfl
  · rcases v with s | n | b | _ <;> rfl

/-- Decomposition of the harvester's metric calls into the two independent
per-field contributions. -/
lemma track_telemetry_metrics_decompose (obj : List (String × JVal)) :
    (track_telemetry (TelemetryInput.parsedObj obj)).metrics =
      (match obj.lookup "acquired_artifacts" with
       | some (JVal.jstr s) => [(StringMetric.acquiredArtifacts, s)]
       | _ => []) ++
      (match obj.lookup "activated_artifacts" with
       | some (JVal.jstr s) => [(StringMetric.activatedArtifacts, s)]
       | _ => []) := by
  show (track_telemetry_field obj "acquired_artifacts" StringMetric.acquiredArtifacts
          "Acquired artifacts was not a string." "No artifacts acquired.").1 ++
       (track_telemetry_field obj "activated_artifacts" StringMetric.activatedArtifacts
          "Activated artifacts was not a string." "No artifacts activated.").1 = _
  rw [track_telemetry_field_eq, track_telemetry_field_eq]

/-- With the seen flag already set, the loop returns whether any further
candidate is mapped. -/
lemma more_than_one_mapped_loop_true (sw : List String) :
    ∀ cs : List String,
      more_than_one_mapped_loop sw cs true = cs.any (fun c => sw.contains c) := by
  intro cs
  induction cs with
  | nil => rfl
  | cons c rest ih =>
    rw [more_than_one_mapped_loop, List.any_cons]
    cases hc : sw.contains c
    · simp only [hc, Bool.false_or]
      exact ih
    · simp only [hc, if_true, Bool.true_or]

/-- A list has a member satisfying p exactly when its p-filter is nonempty. -/
lemma any_iff_filter_pos (p : String → Bool) (l : List String) :
    l.any p = true ↔ 0 < (l.filter p).length := by
  induction l with
  | nil => simp
  | cons c rest ih =>
    rw [List.any_cons, List.filter_cons]
    cases hc : p c
    · simpa using ih
    · simp

/-- The loop with a clear seen flag decides whether at least two candidates
are mapped. -/
lemma more_than_one_mapped_iff_two_le (sw : List String) :
    ∀ cs : List String,
      (more_than_one_mapped cs sw = true ↔
        2 ≤ (cs.filter (fun c => sw.contains c)).length) := by
  intro cs
  unfold more_than_one_mapped
  induction cs with
  | nil => simp [more_than_one_mapped_loop]
  | cons c rest ih =>
    rw [more_than_one_mapped_loop, List.filter_cons]
    cases hc : sw.contains c
    · simpa using ih
    · show more_than_one_mapped_loop sw rest true = true ↔
        2 ≤ (c :: List.filter (fun c => sw.contains c) rest).length
      rw [more_than_one_mapped_loop_true,
        any_iff_filter_pos (fun c => sw.contains c) rest]
      simp only [List.length_cons]
      omega

/-- A duplicate-free list has a p-filter of length at least two exactly when
it has two distinct members satisfying p. -/
lemma two_le_filter_iff (p : String → Bool) (l : List String) (hnd : l.Nodup) :
    2 ≤ (l.filter p).length ↔
      ∃ a b, a ≠ b ∧ a ∈ l ∧ b ∈ l ∧ p a = true ∧ p b = true := by
  constructor
  · intro h
    have hf : (l.filter p).Nodup := hnd.filter p
    rcases hl : l.filter p with _ | ⟨a, t⟩
    · rw [hl] at h; simp at h
    rcases t with _ | ⟨b, t'⟩
    · rw [hl] at h; simp at h
    have ha : a ∈ l.filter p := by rw [hl]; exact List.mem_cons_self a _
    have hb : b ∈ l.filter p := by
      rw [hl]; exact List.mem_cons_of_mem a (List.mem_cons_self b _)
    rw [hl, List.nodup_cons] at hf
    have hab : a ≠ b := fun he => hf.1 (he ▸ List.mem_cons_self b t')
    have ha' := List.mem_filter.1 ha
    have hb' := List.mem_filter.1 hb
    exact ⟨a, b, hab, ha'.1, hb'.1, ha'.2, hb'.2⟩
  · rintro ⟨a, b, hab, hal, hbl, hpa, hpb⟩
    have ha : a ∈ (l.filter p).toFinset := by
      rw [List.mem_toFinset]; exact List.mem_filter.2 ⟨hal, hpa⟩
    have hb : b ∈ (l.filter p).toFinset := by
      rw [List.mem_toFinset]; exact List.mem_filter.2 ⟨hbl, hpb⟩
    have hsub : ({a, b} : Finset String) ⊆ (l.filter p).toFinset := by
      intro x hx
      rcases Finset.mem_insert.1 hx with hx | hx
      · exact hx ▸ ha
      · exact (Finset.mem_singleton.1 hx) ▸ hb
    calc 2 = ({a, b} : Finset String).card := (Finset.card_pair hab).symm
      _ ≤ (l.filter p).toFinset.card := Finset.card_le_card hsub
      _ ≤ (l.filter p).length := (l.filter p).toFinset_card_le

/-- more_than_one_mapped on a duplicate-free candidate group holds exactly
when two distinct group members occur in the switch set. -/
lemma more_than_one_mapped_iff (group switches : List String)
    (hnd : group.Nodup) :
    more_than_one_mapped group switches = true ↔ twoFromGroup group switches := by
  rw [more_than_one_mapped_iff_two_le,
    two_le_filter_iff (fun c => switches.contains c) group hnd]
  unfold twoFromGroup
  constructor
  · rintro ⟨a, b, hab, hag, hbg, hpa, hpb⟩
    exact ⟨a, b, hab, hag, hbg, by simpa using hpa, by simpa using hpb⟩
  · rintro ⟨a, b, hab, hag, hbg, hpa, hpb⟩
    exact ⟨a, b, hab, hag, hbg, by simpa using hpa, by simpa using hpb⟩

/-- Filtering with a predicate that excludes everything q accepts leaves no
q-member behind. -/
lemma any_filter_false {α : Type} (f q : α → Bool)
    (h : ∀ x, q x = true → f x = false) (l : List α) :
    (l.filter f).any q = false := by
  induction l with
  | nil => rfl
  | cons a t ih =>
    rw [List.filter_cons]
    cases hf : f a
    · exact ih
    · rw [if_pos rfl, List.any_cons, ih, Bool.or_false]
      cases hq : q a
      · rfl
      · rw [h a hq] at hf
        exact Bool.noConfusion hf

/-- A member surviving a filter was a member before it. -/
lemma any_of_any_filter {α : Type} (f q : α → Bool) (l : List α)
    (h : (l.filter f).any q = true) : l.any q = true := by
  induction l with
  | nil => exact h
  | cons a t ih =>
    rw [List.filter_cons] at h
    rw [List.any_cons]
    cases hf : f a
    · rw [hf] at h
      rw [ih h, Bool.or_true]
    · rw [hf, if_pos rfl, List.any_cons] at h
      cases hq : q a
      · rw [hq, Bool.false_or] at h
        rw [ih h, Bool.or_true]
      · rfl

/-- Removing a path removes its existence. -/
lemma pathExists_removeFile_self (fs : Fs) (p : String) :
    pathExists (removeFile fs p) p = false :=
  any_filter_false _ _ (fun x hx => by
    show (!(x.1 == p)) = false
    rw [hx]
    rfl) fs.entries

/-- Recursively removing a path removes the existence of the path itself. -/
lemma pathExists_removeAll_self (fs : Fs) (p : String) :
    pathExists (removeAllPaths fs p) p = false := by
  refine any_filter_false _ _ (fun x hx => ?_) fs.entries
  show (!underPath p x.1) = false
  unfold underPath
  rw [hx, Bool.true_or]
  rfl

/-- Removing one path does not create any path. -/
lemma pathExists_removeFile_mono (fs : Fs) (p q : String)
    (h : pathExists (removeFile fs p) q = true) : pathExists fs q = true :=
  any_of_any_filter _ _ fs.entries h

/-- Writing one path leaves distinct paths' existence unchanged as far as
absence is concerned: a distinct path exists afterwards only if it existed
before. -/
lemma pathExists_setEntry_ne (fs : Fs) (p q : String) (e : Entry) (h : q ≠ p)
    (hq : pathExists (setEntry fs p e) q = true) : pathExists fs q = true := by
  have hq' : ((p, e) :: fs.entries.filter fun x => !(x.1 == p)).any
      (fun x => x.1 == q) = true := hq
  rcases List.any_eq_true.1 hq' with ⟨x, hx, hpx⟩
  rcases List.mem_cons.1 hx with rfl | hx'
  · exact absurd (beq_iff_eq.1 hpx).symm h
  · exact List.any_eq_true.2 ⟨x, (List.mem_filter.1 hx').1, hpx⟩

/-- The staging directory path never coincides with the version-marker
path for the same installation root. -/
lemma tempSubdir_ne_marker (a : String) : tempSubdirOf a ≠ versionMarkerOf a := by
  intro h
  have hl := congrArg String.length h
  rw [tempSubdirOf, versionMarkerOf, String.length_append, String.length_append] at hl
  have h4 : ".tmp".length = 4 := by decide
  have h12 : "/version.txt".length = 12 := by decide
  omega

/-- The pinned version gate is not stale exactly when the marker file reads
back the expected version. -/
lemma check_update_required_false_iff (fs : Fs) (p v : String) :
    check_update_required fs p v = false ↔ readContents fs p = some v := by
  unfold check_update_required
  rcases h : readContents fs p with _ | c
  · simp
  · simp

/-! Claim theorems. -/

/-- C6: the Telemetry Harvester is best-effort: a parsed object mapping
acquired_artifacts and activated_artifacts to strings yields exactly the two
track_string calls with those literal values; an unreadable file, a
malformed file, or a missing or non-string field yields no metric call for
the affected content (only debug logging); and the harvest never changes the
parent's exit status, which is the clamp of the delegate result regardless
of the telemetry input. -/
theorem claim_C6_telemetry_best_effort
    (obj : List (String × JVal)) (a b ec err : String) (r : Int)
    (me : Bool) (t₁ t₂ : TelemetryInput) :
    (obj.lookup "acquired_artifacts" = some (JVal.jstr a) →
     obj.lookup "activated_artifacts" = some (JVal.jstr b) →
     (track_telemetry (TelemetryInput.parsedObj obj)).metrics =
       [(StringMetric.acquiredArtifacts, a), (StringMetric.activatedArtifacts, b)]) ∧
    (track_telemetry (TelemetryInput.unreadableFile ec)).metrics = [] ∧
    (track_telemetry (TelemetryInput.malformedFile err)).metrics = [] ∧
    ((∀ s, obj.lookup "acquired_artifacts" ≠ some (JVal.jstr s)) →
     ∀ s, (StringMetric.acquiredArtifacts, s) ∉
       (track_telemetry (TelemetryInput.parsedObj obj)).metrics) ∧
    ((∀ s, obj.lookup "activated_artifacts" ≠ some (JVal.jstr s)) →
     ∀ s, (StringMetric.activatedArtifacts, s) ∉
       (track_telemetry (TelemetryInput.parsedObj obj)).metrics) ∧
    (post_execution r me t₁).1 = clamp_exit_code r ∧
    (post_execution r me t₁).1 = (post_execution r me t₂).1 := by
  refine ⟨?_, rfl, rfl, ?_, ?_, rfl, rfl⟩
  · intro h1 h2
    rw [track_telemetry_metrics_decompose, h1, h2]
    rfl
  · intro hno s hmem
    rw [track_telemetry_metrics_decompose, List.mem_append] at hmem
    rcases hmem with hm | hm
    · rcases h : obj.lookup "acquired_artifacts" with _ | v
      · simp [h] at hm
      · rcases v with s' | n | bb | _
        · exact hno s' h
        · simp [h] at hm
        · simp [h] at hm
        · simp [h] at hm
    · rcases h : obj.lookup "activated_artifacts" with _ | v
      · simp [h] at hm
      · rcases v with s' | n | bb | _ <;> simp [h] at hm
  · intro hno s hmem
    rw [track_telemetry_metrics_decompose, List.mem_append] at hmem
    rcases hmem with hm | hm
    · rcases h : obj.lookup "acquired_artifacts" with _ | v
      · simp [h] at hm
      · rcases v with s' | n | bb | _ <;> simp [h] at hm
    · rcases h : obj.lookup "activated_artifacts" with _ | v
      · simp [h] at hm
      · rcases v with s' | n | bb | _
        · exact hno s' h
        · simp [h] at hm
        · simp [h] at hm
        · simp [h] at hm

/-- C6 witness: at the spec's concrete examples, the theorem yields the two
literal metric calls for string-valued fields, and no acquired-artifacts
metric when the field holds the number 5. -/
theorem claim_C6_telemetry_best_effort_witness :
    (track_telemetry (TelemetryInput.parsedObj
      [("acquired_artifacts", JVal.jstr "foo"),
       ("activated_artifacts", JVal.jstr "bar")])).metrics =
      [(StringMetric.acquiredArtifacts, "foo"),
       (StringMetric.activatedArtifacts, "bar")] ∧
    (StringMetric.acquiredArtifacts, "foo") ∉
      (track_telemetry (TelemetryInput.parsedObj
        [("acquired_artifacts", JVal.jnum 5)])).metrics :=
  ⟨(claim_C6_telemetry_best_effort
      [("acquired_artifacts", JVal.jstr "foo"),
       ("activated_artifacts", JVal.jstr "bar")]
      "foo" "bar" "" "" 0 false (TelemetryInput.parsedObj [])
      (TelemetryInput.parsedObj [])).1 (by decide) (by decide),
   (claim_C6_telemetry_best_effort
      [("acquired_artifacts", JVal.jnum 5)]
      "" "" "" "" 0 false (TelemetryInput.parsedObj [])
      (TelemetryInput.parsedObj [])).2.2.2.1
     (by intro s h; simp [List.lookup] at h) "foo"⟩

/-- C10: the harvester handles its two fields independently: its metric
calls decompose into an acquired-artifacts part that depends only on the
acquired_artifacts lookup and an activated-artifacts part that depends only
on the activated_artifacts lookup, so one field's absence or wrong type
never suppresses the other field's metric. -/
theorem claim_C10_telemetry_fields_independent (obj : List (String × JVal)) :
    (track_telemetry (TelemetryInput.parsedObj obj)).metrics =
      (match obj.lookup "acquired_artifacts" with
       | some (JVal.jstr s) => [(StringMetric.acquiredArtifacts, s)]
       | _ => []) ++
      (match obj.lookup "activated_artifacts" with
       | some (JVal.jstr s) => [(StringMetric.activatedArtifacts, s)]
       | _ => []) :=
  track_telemetry_metrics_decompose obj

/-- C7: the delegate exit code is returned unchanged when it lies in
[0, 127] and collapses to 1 when it is negative or greater than 127. -/
theorem claim_C7_exit_code_clamp (r : Int) :
    ((0 ≤ r ∧ r ≤ 127) → clamp_exit_code r = r) ∧
    ((r < 0 ∨ 127 < r) → clamp_exit_code r = 1) := by
  unfold clamp_exit_code
  constructor
  · intro h
    rw [if_neg]
    omega
  · intro h
    rw [if_pos]
    omega

/-- C7 witness: the clamp at the in-range code 5 and the out-of-range codes
200 and -3. -/
theorem claim_C7_exit_code_clamp_witness :
    clamp_exit_code 5 = 5 ∧ clamp_exit_code 200 = 1 ∧ clamp_exit_code (-3) = 1 :=
  ⟨(claim_C7_exit_code_clamp 5).1 (by omega),
   (claim_C7_exit_code_clamp 200).2 (by omega),
   (claim_C7_exit_code_clamp (-3)).2 (by omega)⟩

/-- C4: the forwarder exits fatally exactly when some platform-dimension
group (operating system, host architecture, target architecture) has two
distinct switches set, the fatal message names a violated group (in the
source's check order), a fatal outcome prevents the delegate invocation
entirely, and with at most one switch per group no such error occurs. -/
theorem claim_C4_mutually_exclusive_groups (parsed : ParsedArguments) :
    ((twoFromGroup ArtifactOperatingSystemsSwitchNames parsed.switches ∨
      twoFromGroup ArtifactHostPlatformSwitchNames parsed.switches ∨
      twoFromGroup ArtifactTargetPlatformSwitchNames parsed.switches) ↔
      ∃ m a, forward_common_artifacts_arguments [] parsed =
        ForwardOutcome.fatalError m a) ∧
    (∀ m a invoke, forward_common_artifacts_arguments [] parsed =
        ForwardOutcome.fatalError m a →
      forward_then_invoke parsed invoke = Except.error m) ∧
    (twoFromGroup ArtifactOperatingSystemsSwitchNames parsed.switches →
      forward_common_artifacts_arguments [] parsed =
        ForwardOutcome.fatalError "ArtifactsSwitchOnlyOneOperatingSystem"
          (parsed.switches.map (fun s => "--" ++ s))) ∧
    (¬ twoFromGroup ArtifactOperatingSystemsSwitchNames parsed.switches →
     twoFromGroup ArtifactHostPlatformSwitchNames parsed.switches →
      forward_common_artifacts_arguments [] parsed =
        ForwardOutcome.fatalError "ArtifactsSwitchOnlyOneHostPlatform"
          (parsed.switches.map (fun s => "--" ++ s))) ∧
    (¬ twoFromGroup ArtifactOperatingSystemsSwitchNames parsed.switches →
     ¬ twoFromGroup ArtifactHostPlatformSwitchNames parsed.switches →
     twoFromGroup ArtifactTargetPlatformSwitchNames parsed.switches →
      forward_common_artifacts_arguments [] parsed =
        ForwardOutcome.fatalError "ArtifactsSwitchOnlyOneTargetPlatform"
          (parsed.switches.map (fun s => "--" ++ s))) ∧
    (¬ twoFromGroup ArtifactOperatingSystemsSwitchNames parsed.switches →
     ¬ twoFromGroup ArtifactHostPlatformSwitchNames parsed.switches →
     ¬ twoFromGroup ArtifactTargetPlatformSwitchNames parsed.switches →
      ∃ l, forward_common_artifacts_arguments [] parsed =
        ForwardOutcome.ok l) := by
  have hOS := more_than_one_mapped_iff ArtifactOperatingSystemsSwitchNames
    parsed.switches (by decide)
  have hHost := more_than_one_mapped_iff ArtifactHostPlatformSwitchNames
    parsed.switches (by decide)
  have hTgt := more_than_one_mapped_iff ArtifactTargetPlatformSwitchNames
    parsed.switches (by decide)
  refine ⟨?_, ?_, ?_, ?_, ?_, ?_⟩
  · constructor
    · intro h
      unfold forward_common_artifacts_arguments
      rcases h with h | h | h
      · rw [if_pos (hOS.mpr h)]
        exact ⟨_, _, rfl⟩
      · by_cases h1 : more_than_one_mapped ArtifactOperatingSystemsSwitchNames
          parsed.switches = true
        · rw [if_pos h1]; exact ⟨_, _, rfl⟩
        · rw [if_neg h1, if_pos (hHost.mpr h)]; exact ⟨_, _, rfl⟩
      · by_cases h1 : more_than_one_mapped ArtifactOperatingSystemsSwitchNames
          parsed.switches = true
        · rw [if_pos h1]; exact ⟨_, _, rfl⟩
        · by_cases h2 : more_than_one_mapped ArtifactHostPlatformSwitchNames
            parsed.switches = true
          · rw [if_neg h1, if_pos h2]; exact ⟨_, _, rfl⟩
          · rw [if_neg h1, if_neg h2, if_pos (hTgt.mpr h)]; exact ⟨_, _, rfl⟩
    · rintro ⟨m, a, hfat⟩
      unfold forward_common_artifacts_arguments at hfat
      by_cases h1 : more_than_one_mapped ArtifactOperatingSystemsSwitchNames
        parsed.switches = true
      · exact Or.inl (hOS.mp h1)
      by_cases h2 : more_than_one_mapped ArtifactHostPlatformSwitchNames
        parsed.switches = true
      · exact Or.inr (Or.inl (hHost.mp h2))
      by_cases h3 : more_than_one_mapped ArtifactTargetPlatformSwitchNames
        parsed.switches = true
      · exact Or.inr (Or.inr (hTgt.mp h3))
      rw [if_neg h1, if_neg h2, if_neg h3] at hfat
      exact absurd hfat (by simp)
  · intro m a invoke hfat
    unfold forward_then_invoke
    rw [hfat]
  · intro h
    unfold forward_common_artifacts_arguments
    rw [if_pos (hOS.mpr h)]
    simp
  · intro hn1 h
    unfold forward_common_artifacts_arguments
    rw [if_neg (fun hb => hn1 (hOS.mp hb)), if_pos (hHost.mpr h)]
    simp
  · intro hn1 hn2 h
    unfold forward_common_artifacts_arguments
    rw [if_neg (fun hb => hn1 (hOS.mp hb)), if_neg (fun hb => hn2 (hHost.mp hb)),
      if_pos (hTgt.mpr h)]
    simp
  · intro hn1 hn2 hn3
    unfold forward_common_artifacts_arguments
    rw [if_neg (fun hb => hn1 (hOS.mp hb)), if_neg (fun hb => hn2 (hHost.mp hb)),
      if_neg (fun hb => hn3 (hTgt.mp hb))]
    exact ⟨_, rfl⟩

/-- C4 witness: two operating-system switches set together exit fatally
naming the operating-system group without invoking any delegate, and a
switch set with at most one switch per group forwards successfully. -/
theorem claim_C4_mutually_exclusive_groups_witness :
    forward_common_artifacts_arguments [] ⟨["osx", "windows"], []⟩ =
      ForwardOutcome.fatalError "ArtifactsSwitchOnlyOneOperatingSystem"
        ["--osx", "--windows"] ∧
    forward_then_invoke ⟨["osx", "windows"], []⟩ (fun _ => 0) =
      Except.error "ArtifactsSwitchOnlyOneOperatingSystem" ∧
    (∃ l, forward_common_artifacts_arguments [] ⟨["linux", "x64"], []⟩ =
      ForwardOutcome.ok l) := by
  have htwo : twoFromGroup ArtifactOperatingSystemsSwitchNames ["osx", "windows"] :=
    ⟨"windows", "osx", by decide, by decide, by decide, by decide, by decide⟩
  have h1 := (claim_C4_mutually_exclusive_groups ⟨["osx", "windows"], []⟩).2.2.1 htwo
  refine ⟨h1, ?_, ?_⟩
  · exact (claim_C4_mutually_exclusive_groups ⟨["osx", "windows"], []⟩).2.1 _ _
      (fun _ => 0) h1
  · exact (claim_C4_mutually_exclusive_groups ⟨["linux", "x64"], []⟩).2.2.2.2.2
      (fun h => absurd ((more_than_one_mapped_iff
        ArtifactOperatingSystemsSwitchNames ["linux", "x64"] (by decide)).mpr h)
        (by decide))
      (fun h => absurd ((more_than_one_mapped_iff
        ArtifactHostPlatformSwitchNames ["linux", "x64"] (by decide)).mpr h)
        (by decide))
      (fun h => absurd ((more_than_one_mapped_iff
        ArtifactTargetPlatformSwitchNames ["linux", "x64"] (by decide)).mpr h)
        (by decide))

/-- The settings loop's push_back pairs, written as a flat map. -/
lemma settings_foldr_eq_flatMap (settings : List (String × String)) :
    settings.foldr (fun kv acc => ("--" ++ kv.1) :: kv.2 :: acc) [] =
      settings.flatMap (fun kv => ["--" ++ kv.1, kv.2]) := by
  induction settings with
  | nil => rfl
  | cons kv rest ih => simp [List.foldr_cons, ih]

/-- C3 counterexample: with two operating-system switches and one setting,
the forwarder exits fatally while appended_to holds only the two switch
arguments - the setting has not been appended at the moment of the abort,
contradicting the claim that the full forwarded list (switches and
settings) is already appended for every input that fails validation. -/
theorem claim_C3_forwarding_order_counterexample :
    forward_common_artifacts_arguments [] ⟨["osx", "windows"], [("version", "1.0")]⟩ =
      ForwardOutcome.fatalError "ArtifactsSwitchOnlyOneOperatingSystem"
        ["--osx", "--windows"] ∧
    "--version" ∉ ["--osx", "--windows"] ∧ "1.0" ∉ ["--osx", "--windows"] := by
  decide

/-- C3 amended: the forwarder appends a switch argument for every parsed
switch and a name-value pair for every parsed setting, preserving the
settings' iteration order; the mutually-exclusive validation runs after the
switch arguments have been appended but before the settings are, so an
input that fails validation has exactly the switch arguments appended at
the fatal abort. -/
theorem claim_C3_forwarding_order (appended_to : List String)
    (parsed : ParsedArguments) :
    forward_common_artifacts_arguments appended_to parsed =
      ForwardOutcome.ok (appended_to ++ parsed.switches.map (fun s => "--" ++ s) ++
        parsed.settings.flatMap (fun kv => ["--" ++ kv.1, kv.2])) ∨
    ∃ m, forward_common_artifacts_arguments appended_to parsed =
      ForwardOutcome.fatalError m
        (appended_to ++ parsed.switches.map (fun s => "--" ++ s)) := by
  unfold forward_common_artifacts_arguments
  by_cases h1 : more_than_one_mapped ArtifactOperatingSystemsSwitchNames
    parsed.switches = true
  · rw [if_pos h1]; exact Or.inr ⟨_, rfl⟩
  rw [if_neg h1]
  by_cases h2 : more_than_one_mapped ArtifactHostPlatformSwitchNames
    parsed.switches = true
  · rw [if_pos h2]; exact Or.inr ⟨_, rfl⟩
  rw [if_neg h2]
  by_cases h3 : more_than_one_mapped ArtifactTargetPlatformSwitchNames
    parsed.switches = true
  · rw [if_pos h3]; exact Or.inr ⟨_, rfl⟩
  rw [if_neg h3, settings_foldr_eq_flatMap]
  exact Or.inl rfl

/-- C2: in pinned mode the version gate is not stale exactly when the
version-marker file reads back the running build's version string (with
absence, unreadability and mismatch all reading back differently); when the
marker matches, provisioning performs no operation at all, and when it does
not, provisioning proceeds to a download of the bundle. -/
theorem claim_C2_pinned_version_gate (fs : Fs) (downloadOk : Bool)
    (download_root artifactsPath version : String) :
    (check_update_required fs (versionMarkerOf artifactsPath) version = false ↔
      readContents fs (versionMarkerOf artifactsPath) = some version) ∧
    (readContents fs (versionMarkerOf artifactsPath) = some version →
      provision_pinned downloadOk fs download_root artifactsPath version =
        (some fs, [])) ∧
    (readContents fs (versionMarkerOf artifactsPath) ≠ some version →
      ∃ uri dest, Op.download uri dest ∈
        (provision_pinned downloadOk fs download_root artifactsPath version).2) := by
  refine ⟨check_update_required_false_iff fs (versionMarkerOf artifactsPath) version,
    ?_, ?_⟩
  · intro h
    unfold provision_pinned
    rw [(check_update_required_false_iff fs (versionMarkerOf artifactsPath)
      version).mpr h]
    rfl
  · intro h
    have hc : check_update_required fs (versionMarkerOf artifactsPath) version = true := by
      cases hcb : check_update_required fs (versionMarkerOf artifactsPath) version
      · exact absurd ((check_update_required_false_iff fs
          (versionMarkerOf artifactsPath) version).mp hcb) h
      · rfl
    unfold provision_pinned
    rw [hc]
    refine ⟨pinned_bundle_uri version,
      download_root ++ "/" ++ pinned_tarball_name version, ?_⟩
    cases downloadOk
    · show Op.download _ _ ∈
        [Op.statusMsg "DownloadingVcpkgStandaloneBundle",
         Op.download (pinned_bundle_uri version)
           (download_root ++ "/" ++ pinned_tarball_name version)]
      exact List.mem_cons_of_mem _ (List.mem_cons_self _ _)
    · show Op.download _ _ ∈
        [Op.statusMsg "DownloadingVcpkgStandaloneBundle",
         Op.download (pinned_bundle_uri version)
           (download_root ++ "/" ++ pinned_tarball_name version)] ++ _
      exact List.mem_append_left _ (List.mem_cons_of_mem _ (List.mem_cons_self _ _))

/-- C2 witness: a matching marker file yields no provisioning activity; an
absent and a mismatched marker both lead to a download. -/
theorem claim_C2_pinned_version_gate_witness :
    provision_pinned true ⟨[("/r/vcpkg-artifacts/version.txt", Entry.fileE "1.0")]⟩
      "/dl" "/r/vcpkg-artifacts" "1.0" =
      (some ⟨[("/r/vcpkg-artifacts/version.txt", Entry.fileE "1.0")]⟩, []) ∧
    (∃ uri dest, Op.download uri dest ∈
      (provision_pinned true ⟨[]⟩ "/dl" "/r/vcpkg-artifacts" "1.0").2) ∧
    (∃ uri dest, Op.download uri dest ∈
      (provision_pinned true
        ⟨[("/r/vcpkg-artifacts/version.txt", Entry.fileE "0.9")]⟩
        "/dl" "/r/vcpkg-artifacts" "1.0").2) :=
  ⟨(claim_C2_pinned_version_gate
      ⟨[("/r/vcpkg-artifacts/version.txt", Entry.fileE "1.0")]⟩ true
      "/dl" "/r/vcpkg-artifacts" "1.0").2.1 (by decide),
   (claim_C2_pinned_version_gate ⟨[]⟩ true "/dl" "/r/vcpkg-artifacts" "1.0").2.2
     (by decide),
   (claim_C2_pinned_version_gate
      ⟨[("/r/vcpkg-artifacts/version.txt", Entry.fileE "0.9")]⟩ true
      "/dl" "/r/vcpkg-artifacts" "1.0").2.2 (by decide)⟩

/-- C8: in latest mode the version gate reports stale exactly when the
development sentinel file is absent from the installation directory, and a
present sentinel makes provisioning a no-op (no fetch, no install) whatever
else the filesystem holds. -/
theorem claim_C8_latest_version_gate (fs : Fs) (downloadOk : Bool)
    (removeFails : List String) (download_root artifactsPath : String) :
    (latest_out_of_date fs artifactsPath = true ↔
      pathExists fs (artifactsPath ++ "/artifacts-development.txt") = false) ∧
    (pathExists fs (artifactsPath ++ "/artifacts-development.txt") = true →
      provision_latest downloadOk removeFails fs download_root artifactsPath =
        (some fs, [])) := by
  constructor
  · unfold latest_out_of_date
    cases h : pathExists fs (artifactsPath ++ "/artifacts-development.txt") <;>
      simp [h]
  · intro h
    unfold provision_latest latest_out_of_date
    rw [h]
    rfl

/-- C8 witness: with the sentinel present (alongside arbitrary other
content) provisioning does nothing; the gate instantiated both ways. -/
theorem claim_C8_latest_version_gate_witness :
    provision_latest true []
      ⟨[("/r/vcpkg-artifacts/artifacts-development.txt", Entry.fileE ""),
        ("/r/old-stuff", Entry.dirE)]⟩ "/dl" "/r/vcpkg-artifacts" =
      (some ⟨[("/r/vcpkg-artifacts/artifacts-development.txt", Entry.fileE ""),
        ("/r/old-stuff", Entry.dirE)]⟩, []) :=
  (claim_C8_latest_version_gate
    ⟨[("/r/vcpkg-artifacts/artifacts-development.txt", Entry.fileE ""),
      ("/r/old-stuff", Entry.dirE)]⟩ true [] "/dl" "/r/vcpkg-artifacts").2
    (by decide)

/-- C5: the bundle fetcher never throws or aborts: in both arms its result
is some freshly downloaded archive path or none; a download failure yields
none; in the latest arm any pre-existing file at the tarball path is removed
before the download is attempted (the remove operation precedes the download
in the trace), and when that removal reports an error the fetcher reports an
error line and returns none without attempting the download. -/
theorem claim_C5_bundle_fetcher_total (downloadOk : Bool)
    (removeFails : List String) (fs : Fs) (download_root version : String) :
    ((download_vcpkg_standalone_bundle_pinned downloadOk fs download_root version).1 =
        some (download_root ++ "/" ++ pinned_tarball_name version) ∨
      (download_vcpkg_standalone_bundle_pinned downloadOk fs download_root version).1 =
        none) ∧
    (downloadOk = false →
      (download_vcpkg_standalone_bundle_pinned downloadOk fs download_root version).1 =
        none) ∧
    (downloadOk = true →
      (download_vcpkg_standalone_bundle_pinned downloadOk fs download_root version).1 =
        some (download_root ++ "/" ++ pinned_tarball_name version)) ∧
    ((download_vcpkg_standalone_bundle_latest downloadOk removeFails fs download_root).1 =
        some (download_root ++ "/" ++ latest_tarball_name) ∨
      (download_vcpkg_standalone_bundle_latest downloadOk removeFails fs download_root).1 =
        none) ∧
    (removeFails.contains (download_root ++ "/" ++ latest_tarball_name) = true →
      (download_vcpkg_standalone_bundle_latest downloadOk removeFails fs download_root).1 =
        none ∧
      (download_vcpkg_standalone_bundle_latest downloadOk removeFails fs download_root).2.2 =
        [Op.reportLine "warning: DownloadingVcpkgStandaloneBundleLatest",
         Op.reportLine ("error: remove " ++ (download_root ++ "/" ++ latest_tarball_name))] ∧
      (download_vcpkg_standalone_bundle_latest downloadOk removeFails fs download_root).2.1 =
        fs) ∧
    (removeFails.contains (download_root ++ "/" ++ latest_tarball_name) = false →
      (download_vcpkg_standalone_bundle_latest downloadOk removeFails fs download_root).2.2 =
        [Op.reportLine "warning: DownloadingVcpkgStandaloneBundleLatest",
         Op.removeOp (download_root ++ "/" ++ latest_tarball_name),
         Op.download latest_bundle_uri (download_root ++ "/" ++ latest_tarball_name)] ∧
      (downloadOk = false →
        (download_vcpkg_standalone_bundle_latest downloadOk removeFails fs download_root).1 =
          none ∧
        pathExists
          (download_vcpkg_standalone_bundle_latest downloadOk removeFails fs download_root).2.1
          (download_root ++ "/" ++ latest_tarball_name) = false) ∧
      (downloadOk = true →
        (download_vcpkg_standalone_bundle_latest downloadOk removeFails fs download_root).1 =
          some (download_root ++ "/" ++ latest_tarball_name))) := by
  cases downloadOk <;>
    cases hr : removeFails.contains (download_root ++ "/" ++ latest_tarball_name) <;>
    simp only [download_vcpkg_standalone_bundle_pinned,
      download_vcpkg_standalone_bundle_latest, hr]
  · exact ⟨Or.inr rfl, fun _ => rfl, fun h => Bool.noConfusion h, Or.inr rfl,
      fun h => Bool.noConfusion h,
      fun _ => ⟨rfl, fun _ => ⟨rfl, pathExists_removeFile_self fs _⟩,
        fun h => Bool.noConfusion h⟩⟩
  · exact ⟨Or.inr rfl, fun _ => rfl, fun h => Bool.noConfusion h, Or.inr rfl,
      fun _ => ⟨rfl, rfl, rfl⟩, fun h => Bool.noConfusion h⟩
  · exact ⟨Or.inl rfl, fun h => Bool.noConfusion h, fun _ => rfl, Or.inl rfl,
      fun h => Bool.noConfusion h,
      fun _ => ⟨rfl, fun h => Bool.noConfusion h, fun _ => rfl⟩⟩
  · exact ⟨Or.inl rfl, fun h => Bool.noConfusion h, fun _ => rfl, Or.inr rfl,
      fun _ => ⟨rfl, rfl, rfl⟩, fun h => Bool.noConfusion h⟩

/-- C5 witness: a successful latest fetch deletes before downloading; a
failed removal reports and returns none; a failed pinned download returns
none. -/
theorem claim_C5_bundle_fetcher_total_witness :
    (download_vcpkg_standalone_bundle_latest true [] ⟨[]⟩ "/dl").2.2 =
      [Op.reportLine "warning: DownloadingVcpkgStandaloneBundleLatest",
       Op.removeOp "/dl/vcpkg-standalone-bundle-latest.tar.gz",
       Op.download latest_bundle_uri "/dl/vcpkg-standalone-bundle-latest.tar.gz"] ∧
    (download_vcpkg_standalone_bundle_latest true
      ["/dl/vcpkg-standalone-bundle-latest.tar.gz"] ⟨[]⟩ "/dl").1 = none ∧
    (download_vcpkg_standalone_bundle_pinned false ⟨[]⟩ "/dl" "1.0").1 = none :=
  ⟨((claim_C5_bundle_fetcher_total true [] ⟨[]⟩ "/dl" "1.0").2.2.2.2.2
      (by decide)).1,
   ((claim_C5_bundle_fetcher_total true
      ["/dl/vcpkg-standalone-bundle-latest.tar.gz"] ⟨[]⟩ "/dl" "1.0").2.2.2.2.1
      (by decide)).1,
   (claim_C5_bundle_fetcher_total false [] ⟨[]⟩ "/dl" "1.0").2.1 rfl⟩

/-- Removing a path preserves the absence of any path. -/
lemma pathExists_removeFile_false (fs : Fs) (p q : String)
    (h : pathExists fs q = false) : pathExists (removeFile fs p) q = false := by
  cases hc : pathExists (removeFile fs p) q
  · rfl
  · rw [pathExists_removeFile_mono fs p q hc] at h
    exact Bool.noConfusion h

/-- Writing one path preserves the absence of any distinct path. -/
lemma pathExists_setEntry_ne_false (fs : Fs) (p q : String) (e : Entry)
    (h : q ≠ p) (hq : pathExists fs q = false) :
    pathExists (setEntry fs p e) q = false := by
  cases hc : pathExists (setEntry fs p e) q
  · rfl
  · rw [pathExists_setEntry_ne fs p q e h hc] at hq
    exact Bool.noConfusion hq

/-- After the installer sequence neither the staging directory nor the
archive file exists, in either arm (in the pinned arm provided the archive
path is not the version-marker path the final step writes). -/
lemma install_bundle_clean (pinned : Bool) (version : String) (fs : Fs)
    (tarball artifactsPath : String)
    (h : pinned = true → tarball ≠ versionMarkerOf artifactsPath) :
    pathExists (install_bundle pinned version fs tarball artifactsPath).1
      (tempSubdirOf artifactsPath) = false ∧
    pathExists (install_bundle pinned version fs tarball artifactsPath).1
      tarball = false := by
  cases pinned
  · constructor
    · exact pathExists_removeFile_false _ _ _ (pathExists_removeAll_self _ _)
    · exact pathExists_removeFile_self _ _
  · constructor
    · exact pathExists_setEntry_ne_false _ _ _ _
        (tempSubdir_ne_marker artifactsPath)
        (pathExists_removeFile_false _ _ _ (pathExists_removeAll_self _ _))
    · exact pathExists_setEntry_ne_false _ _ _ _ (h rfl)
        (pathExists_removeFile_self _ _)

/-- C1: when the pinned version gate reports stale and the fetch succeeds,
provisioning performs exactly, in order: the status message and download,
the extraction of the archive into the fresh staging directory, the removal
of the whole live installation root, the rename of only the staged
vcpkg-artifacts subtree into the live root, the removal of the staging
root, the removal of the archive file, and - last, after the rename - the
version-marker write; afterwards neither the staging directory nor the
archive file exists. -/
theorem claim_C1_atomic_installer_steps (fs : Fs)
    (download_root artifactsPath version : String)
    (hstale : check_update_required fs (versionMarkerOf artifactsPath) version = true)
    (hne : download_root ++ "/" ++ pinned_tarball_name version ≠
      versionMarkerOf artifactsPath) :
    (provision_pinned true fs download_root artifactsPath version).2 =
      [Op.statusMsg "DownloadingVcpkgStandaloneBundle",
       Op.download (pinned_bundle_uri version)
         (download_root ++ "/" ++ pinned_tarball_name version),
       Op.extractTemp (download_root ++ "/" ++ pinned_tarball_name version)
         artifactsPath,
       Op.removeAll artifactsPath,
       Op.renameOp (tempSubdirOf artifactsPath ++ "/vcpkg-artifacts") artifactsPath,
       Op.removeAll (tempSubdirOf artifactsPath),
       Op.removeOp (download_root ++ "/" ++ pinned_tarball_name version),
       Op.writeOp (versionMarkerOf artifactsPath) version] ∧
    ∃ fs', (provision_pinned true fs download_root artifactsPath version).1 =
        some fs' ∧
      pathExists fs' (tempSubdirOf artifactsPath) = false ∧
      pathExists fs' (download_root ++ "/" ++ pinned_tarball_name version) = false := by
  unfold provision_pinned
  rw [hstale]
  have hc := install_bundle_clean true version
    (writeFile fs (download_root ++ "/" ++ pinned_tarball_name version) "")
    (download_root ++ "/" ++ pinned_tarball_name version) artifactsPath
    (fun _ => hne)
  exact ⟨rfl, _, rfl, hc.1, hc.2⟩

/-- C1 witness: on an empty filesystem (stale marker) with distinct
download root and installation root, the exact operation sequence and the
clean final state. -/
theorem claim_C1_atomic_installer_steps_witness :
    (provision_pinned true ⟨[]⟩ "/dl" "/r/vcpkg-artifacts" "1.0").2 =
      [Op.statusMsg "DownloadingVcpkgStandaloneBundle",
       Op.download (pinned_bundle_uri "1.0")
         "/dl/vcpkg-standalone-bundle-1.0.tar.gz",
       Op.extractTemp "/dl/vcpkg-standalone-bundle-1.0.tar.gz" "/r/vcpkg-artifacts",
       Op.removeAll "/r/vcpkg-artifacts",
       Op.renameOp "/r/vcpkg-artifacts.tmp/vcpkg-artifacts" "/r/vcpkg-artifacts",
       Op.removeAll "/r/vcpkg-artifacts.tmp",
       Op.removeOp "/dl/vcpkg-standalone-bundle-1.0.tar.gz",
       Op.writeOp "/r/vcpkg-artifacts/version.txt" "1.0"] ∧
    ∃ fs', (provision_pinned true ⟨[]⟩ "/dl" "/r/vcpkg-artifacts" "1.0").1 =
        some fs' ∧
      pathExists fs' "/r/vcpkg-artifacts.tmp" = false ∧
      pathExists fs' "/dl/vcpkg-standalone-bundle-1.0.tar.gz" = false :=
  claim_C1_atomic_installer_steps ⟨[]⟩ "/dl" "/r/vcpkg-artifacts" "1.0"
    (by decide) (by decide)

/-- With debug off and metrics off, every token of the built argument list
is one of the builder's literal flag tokens or a clash with a verbatim
input. -/
lemma mem_build_invocation_args (i : InvocationInputs) (tok : String)
    (hd : i.debugging = false) (hm : i.metricsEnabled = false)
    (hmem : tok ∈ build_invocation_args i) :
    tok ∈ ["--vcpkg-root", "--z-vcpkg-command", "--z-vcpkg-artifacts-root",
           "--z-vcpkg-downloads", "--z-vcpkg-registries-cache",
           "--z-next-previous-environment", "--z-global-config", "--language"] ∨
    flag_token_clash i tok = true := by
  cases hlm : (i.loadedMessages != "") <;>
    simp [build_invocation_args, fixed_invocation_args, hd, hm, hlm,
      List.mem_append] at hmem <;>
    simp [flag_token_clash, List.contains] <;>
    tauto

/-- C9 counterexample: with debug mode and metrics both enabled, the
argument immediately after the bare flag at index 2 ("--debug") is the
telemetry flag token itself, not a path argument: it differs from every
path the builder interpolates or generates for that invocation.  The claim
that each of the two flags is followed by a well-formed path argument
therefore fails for "--debug". -/
theorem claim_C9_invocation_builder_counterexample :
    (build_invocation_args
        ⟨"/r/vcpkg-artifacts/main.js", ["acquire"], true, true, "/tmp/vcpkg",
         "u1", "u2", "/r", "/r/vcpkg", "/r/artifacts", "/r/downloads",
         "/r/registries", "/r/config.json", ""⟩).get? 2 = some "--debug" ∧
    (build_invocation_args
        ⟨"/r/vcpkg-artifacts/main.js", ["acquire"], true, true, "/tmp/vcpkg",
         "u1", "u2", "/r", "/r/vcpkg", "/r/artifacts", "/r/downloads",
         "/r/registries", "/r/config.json", ""⟩).get? 3 =
      some "--z-telemetry-file" ∧
    "--z-telemetry-file" ∉
      ["/r/vcpkg-artifacts/main.js", "acquire",
       "/tmp/vcpkg/u1_artifacts_telemetry.txt",
       "/tmp/vcpkg/u2_previous_environment.txt", "/r", "/r/vcpkg",
       "/r/artifacts", "/r/downloads", "/r/registries", "/r/config.json",
       "/tmp/vcpkg/messages.json"] := by
  decide

/-- C9 amended: with debug mode and metrics both enabled the built list is
the delegate entry point, the forwarded user arguments verbatim, then the
bare flag "--debug" (which takes no argument of its own), then the
telemetry flag followed by the generated telemetry file path, then the
fixed contextual flags; with both disabled neither flag token appears,
provided no forwarded argument or interpolated path equals that token. -/
theorem claim_C9_invocation_builder (i : InvocationInputs) :
    (i.debugging = true → i.metricsEnabled = true →
      build_invocation_args i =
        [i.mainJsPath] ++ i.forwardedArgs ++
        ["--debug", "--z-telemetry-file", telemetryFilePathOf i] ++
        fixed_invocation_args i ++
        (if i.loadedMessages != "" then
          ["--language", i.tempDirectory ++ "/messages.json"] else [])) ∧
    (i.debugging = false → i.metricsEnabled = false →
      flag_token_clash i "--debug" = false →
      "--debug" ∉ build_invocation_args i) ∧
    (i.debugging = false → i.metricsEnabled = false →
      flag_token_clash i "--z-telemetry-file" = false →
      "--z-telemetry-file" ∉ build_invocation_args i) := by
  refine ⟨?_, ?_, ?_⟩
  · intro hd hm
    unfold build_invocation_args
    rw [hd, hm]
    simp
  · intro hd hm hcl hmem
    rcases mem_build_invocation_args i "--debug" hd hm hmem with h | h
    · exact absurd h (by decide)
    · rw [h] at hcl
      exact Bool.noConfusion hcl
  · intro hd hm hcl hmem
    rcases mem_build_invocation_args i "--z-telemetry-file" hd hm hmem with h | h
    · exact absurd h (by decide)
    · rw [h] at hcl
      exact Bool.noConfusion hcl

/-- C9 witness: the on-case equation at a concrete input and the off-case
absences at a concrete input without token clashes. -/
theorem claim_C9_invocation_builder_witness :
    build_invocation_args
        ⟨"/r/vcpkg-artifacts/main.js", ["acquire"], true, true, "/tmp/vcpkg",
         "u1", "u2", "/r", "/r/vcpkg", "/r/artifacts", "/r/downloads",
         "/r/registries", "/r/config.json", ""⟩ =
      ["/r/vcpkg-artifacts/main.js", "acquire", "--debug", "--z-telemetry-file",
       "/tmp/vcpkg/u1_artifacts_telemetry.txt", "--vcpkg-root", "/r",
       "--z-vcpkg-command", "/r/vcpkg", "--z-vcpkg-artifacts-root",
       "/r/artifacts", "--z-vcpkg-downloads", "/r/downloads",
       "--z-vcpkg-registries-cache", "/r/registries",
       "--z-next-previous-environment",
       "/tmp/vcpkg/u2_previous_environment.txt", "--z-global-config",
       "/r/config.json"] ∧
    "--debug" ∉ build_invocation_args
        ⟨"/r/vcpkg-artifacts/main.js", ["acquire"], false, false, "/tmp/vcpkg",
         "u1", "u2", "/r", "/r/vcpkg", "/r/artifacts", "/r/downloads",
         "/r/registries", "/r/config.json", ""⟩ ∧
    "--z-telemetry-file" ∉ build_invocation_args
        ⟨"/r/vcpkg-artifacts/main.js", ["acquire"], false, false, "/tmp/vcpkg",
         "u1", "u2", "/r", "/r/vcpkg", "/r/artifacts", "/r/downloads",
         "/r/registries", "/r/config.json", ""⟩ :=
  ⟨(claim_C9_invocation_builder
      ⟨"/r/vcpkg-artifacts/main.js", ["acquire"], true, true, "/tmp/vcpkg",
       "u1", "u2", "/r", "/r/vcpkg", "/r/artifacts", "/r/downloads",
       "/r/registries", "/r/config.json", ""⟩).1 rfl rfl,
   (claim_C9_invocation_builder
      ⟨"/r/vcpkg-artifacts/main.js", ["acquire"], false, false, "/tmp/vcpkg",
       "u1", "u2", "/r", "/r/vcpkg", "/r/artifacts", "/r/downloads",
       "/r/registries", "/r/config.json", ""⟩).2.1 rfl rfl (by decide),
   (claim_C9_invocation_builder
      ⟨"/r/vcpkg-artifacts/main.js", ["acquire"], false, false, "/tmp/vcpkg",
       "u1", "u2", "/r", "/r/vcpkg", "/r/artifacts", "/r/downloads",
       "/r/registries", "/r/config.json", ""⟩).2.2 rfl rfl (by decide)⟩

end ConfigureEnvironment
